import Mathlib

/-!
# libfiemap binder client (`fs_mgr/libfiemap/binder.cpp`)

A shallow embedding of the binder-backed `IImageManager` client: the proxy
class `ImageManagerBinder`, the acquisition helpers `AcquireIGsid` and
`GetGsiService`, and the factory `IImageManager::Open`.

Everything the C++ file reaches outside itself (Android properties, the
service manager, the steady clock, the remote `IGsid` / `IGsiService` /
`IImageService` objects) is an oracle over an abstract environment state `σ`.
Each embedded function takes the environment state and returns its C++ return
value, the new environment state and the list of external interactions it
performed, in program order.
-/

namespace Fiemap

/-! ## Data model -/

/-- The part of `android::binder::Status` the client inspects. -/
structure Status where
  isOk : Bool
  exceptionMessage : String
deriving DecidableEq, Repr

/-- The parcelable `android::gsi::MappedImage`; only `path` is read. -/
structure MappedImage where
  path : String
deriving DecidableEq, Repr

/-- A non-null `sp<IGsid>`; the null pointer is `Option.none`. -/
structure IGsid where
  id : Nat
deriving DecidableEq, Repr

/-- A non-null `sp<IGsiService>`. -/
structure IGsiService where
  id : Nat
deriving DecidableEq, Repr

/-- A non-null `sp<IImageService>`. -/
structure IImageService where
  id : Nat
deriving DecidableEq, Repr

/-- One interaction of the client with the outside world. Remote calls carry
the object they are issued on and the arguments sent. -/
inductive Event where
  | GetProperty (key default_value : String)
  | SetProperty (key value : String)
  | WaitForProperty (key expected_value : String) (relative_timeout_ms : Int)
  | usleep (usec : Nat)
  | steady_clock_now (ticks_ns : Int)
  | checkService (name : String)
  | getClient (gsid : IGsid)
  | openImageService (service : IGsiService) (dir : String)
  | createBackingImage (manager : IImageService) (name : String) (size : Nat) (flags : Int)
  | deleteBackingImage (manager : IImageService) (name : String)
  | mapImageDevice (manager : IImageService) (name : String) (timeout_ms : Int)
  | unmapImageDevice (manager : IImageService) (name : String)
  | backingImageExists (manager : IImageService) (name : String)
  | isImageMapped (manager : IImageService) (name : String)
  | getAllBackingImages (manager : IImageService)
  | zeroFillNewImage (manager : IImageService) (name : String) (bytes : Nat)
  | removeAllImages (manager : IImageService)
  | removeDisabledImages (manager : IImageService)
  | getMappedImageDevice (manager : IImageService) (name : String)
  | LOG_ERROR (message : String)
deriving DecidableEq, Repr

/-- The behaviour of everything outside `binder.cpp`, over an environment
state `σ`. An out-parameter of a remote call is returned as the contents the
pointed-to object has when the call returns (what the remote wrote, or what it
held before when the remote wrote nothing). `getMappedImageDevice` writes
through the caller's own pointer, so it also receives the prior contents.
`kGsiServiceName` comes from `libgsi/libgsi.h`, which is not part of this
file, and so do the parameter types of the remote methods, taken here to be
the types of the arguments passed. `checkService` stands for
`defaultServiceManager()->checkService(name)`. `steady_clock_now` is the
reading of `std::chrono::steady_clock` in the current state, in nanosecond
ticks. Durations are exact integers: `timeout_ms - elapsed` is the
mathematical difference, as in C++ whenever it does not overflow 64 bits. -/
structure Env (σ : Type) where
  kGsiServiceName : String
  GetProperty : String → String → σ → String × σ
  SetProperty : String → String → σ → Bool × σ
  WaitForProperty : String → String → Int → σ → Bool × σ
  usleep : Nat → σ → σ
  steady_clock_now : σ → Int
  checkService : String → σ → Option IGsid × σ
  getClient : IGsid → σ → (Status × Option IGsiService) × σ
  openImageService : IGsiService → String → σ → (Status × Option IImageService) × σ
  createBackingImage : IImageService → String → Nat → Int → σ → Status × σ
  deleteBackingImage : IImageService → String → σ → Status × σ
  mapImageDevice : IImageService → String → Int → σ → (Status × MappedImage) × σ
  unmapImageDevice : IImageService → String → σ → Status × σ
  backingImageExists : IImageService → String → σ → (Status × Bool) × σ
  isImageMapped : IImageService → String → σ → (Status × Bool) × σ
  getAllBackingImages : IImageService → σ → (Status × List String) × σ
  zeroFillNewImage : IImageService → String → Nat → σ → Status × σ
  removeAllImages : IImageService → σ → Status × σ
  removeDisabledImages : IImageService → σ → Status × σ
  getMappedImageDevice : IImageService → String → String → σ → (Status × String) × σ

/-- The outcome of running a piece of the client: its return value, the
environment afterwards and the interactions performed, oldest first. -/
structure Run (σ α : Type) where
  val : α
  env : σ
  events : List Event
deriving DecidableEq

/-- A computation of the client over the environment state. -/
def M (σ α : Type) : Type := σ → Run σ α

/-- Return a value without touching the environment. -/
def M.pure {σ α : Type} (a : α) : M σ α := fun s => ⟨a, s, []⟩

/-- Sequencing: run `m`, then `f` on its value, concatenating the events. -/
def M.bind {σ α β : Type} (m : M σ α) (f : α → M σ β) : M σ β := fun s =>
  let r := m s
  let r' := f r.val r.env
  ⟨r'.val, r'.env, r.events ++ r'.events⟩

instance {σ : Type} : Monad (M σ) where
  pure := M.pure
  bind := M.bind

/-- One call into the environment, recorded as event `e`. -/
def call {σ α : Type} (e : Event) (f : σ → α × σ) : M σ α := fun s =>
  ⟨(f s).1, (f s).2, [e]⟩

/-- The statement `LOG(ERROR) << message`. -/
def LOG_ERROR {σ : Type} (message : String) : M σ Unit := fun s =>
  ⟨(), s, [Event.LOG_ERROR message]⟩

/-- The bound proxy object: `service_` and `manager_`. -/
structure ImageManagerBinder where
  service_ : IGsiService
  manager_ : IImageService
deriving DecidableEq, Repr

/-! ## Integer helpers of `MapImageDevice` -/

def INT32_MIN : Int := -2147483648

def INT32_MAX : Int := 2147483647

/-- Implements `std::clamp(v, lo, hi)`: `(v < lo) ? lo : (hi < v) ? hi : v`. -/
def clamp (v lo hi : Int) : Int :=
  if v < lo then lo else if hi < v then hi else v

/-- Implements `static_cast<int32_t>` of a 64-bit value: reduction modulo
`2^32` into the signed range. -/
def static_cast_int32 (x : Int) : Int :=
  (x + 2147483648) % 4294967296 - 2147483648

/-! ## `ImageManagerBinder`, operation by operation

`__PRETTY_FUNCTION__` is written as the qualified method name. -/

variable {σ : Type}

/-- Returns the function result together with the contents of `*path` after
the call; `path` is the contents before. -/
def ImageManagerBinder.MapImageDevice (E : Env σ) (self : ImageManagerBinder)
    (name : String) (timeout_ms : Int) (path : String) : M σ (Bool × String) := do
  let timeout_ms_count := static_cast_int32 (clamp timeout_ms INT32_MIN INT32_MAX)
  let (status, map) ← call (.mapImageDevice self.manager_ name timeout_ms_count)
    (E.mapImageDevice self.manager_ name timeout_ms_count)
  if !status.isOk then
    LOG_ERROR ("ImageManagerBinder::MapImageDevice binder returned: "
      ++ status.exceptionMessage)
    return (false, path)
  return (true, map.path)

/-- The opener is any value of any type `Opener`; `dev` is the contents of
`*dev` before the call and the second component the contents after. -/
def ImageManagerBinder.MapImageWithDeviceMapper {Opener : Type} (_self : ImageManagerBinder)
    (_opener : Opener) (_name : String) (dev : String) : M σ (Bool × String) := do
  LOG_ERROR "MapImageWithDeviceMapper is not available over binder."
  return (false, dev)

def ImageManagerBinder.GetAllBackingImages (E : Env σ) (self : ImageManagerBinder) :
    M σ (List String) := do
  let (status, retval) ← call (.getAllBackingImages self.manager_)
    (E.getAllBackingImages self.manager_)
  if !status.isOk then
    LOG_ERROR ("ImageManagerBinder::GetAllBackingImages binder returned: "
      ++ status.exceptionMessage)
  return retval

def ImageManagerBinder.DisableImage (_self : ImageManagerBinder) (_name : String) :
    M σ Bool := do
  LOG_ERROR "ImageManagerBinder::DisableImage is not available over binder"
  return false

/-- Returns the function result together with the contents of `*device` after
the call. The remote call writes through the caller's pointer, so `*device`
is whatever the call left there, also on failure. -/
def ImageManagerBinder.GetMappedImageDevice (E : Env σ) (self : ImageManagerBinder)
    (name : String) (device : String) : M σ (Bool × String) := do
  let (status, device) ← call (.getMappedImageDevice self.manager_ name)
    (E.getMappedImageDevice self.manager_ name device)
  if !status.isOk then
    LOG_ERROR ("ImageManagerBinder::GetMappedImageDevice binder returned: "
      ++ status.exceptionMessage)
    return (false, device)
  return (!device.isEmpty, device)

/-- The callback is any computation over the environment taking the set of
image names. -/
def ImageManagerBinder.MapAllImages (_self : ImageManagerBinder)
    (_init : List String → M σ Bool) : M σ Bool := do
  LOG_ERROR "ImageManagerBinder::MapAllImages not available over binder"
  return false

/-! ## Acquisition -/

/-- Implements `android::interface_cast<IGsid>`: null stays null. -/
def interface_cast (service : Option IGsid) : Option IGsid := service

/-- The condition `!SetProperty(..) || !WaitForProperty(..)` short-circuits:
the wait is evaluated only after the start request succeeded, and both
failures take the same branch. -/
def AcquireIGsid (E : Env σ) (timeout_ms : Int) : M σ (Option IGsid) := do
  if (← call (.GetProperty "init.svc.gsid" "") (E.GetProperty "init.svc.gsid" ""))
      != "running" then
    if !(← call (.SetProperty "ctl.start" "gsid") (E.SetProperty "ctl.start" "gsid")) then
      LOG_ERROR "Could not start the gsid service"
      return none
    if !(← call (.WaitForProperty "init.svc.gsid" "running" timeout_ms)
          (E.WaitForProperty "init.svc.gsid" "running" timeout_ms)) then
      LOG_ERROR "Could not start the gsid service"
      return none
    -- Sleep for 250ms to give the service time to register.
    call (.usleep (250 * 1000)) (fun s => ((), E.usleep (250 * 1000) s))
  let service ← call (.checkService E.kGsiServiceName) (E.checkService E.kGsiServiceName)
  return interface_cast service

/-- Implements `std::chrono::steady_clock::now()`. -/
def steady_clock_now (E : Env σ) : M σ Int := fun s =>
  ⟨E.steady_clock_now s, s, [Event.steady_clock_now (E.steady_clock_now s)]⟩

/-- Implements `duration_cast<milliseconds>` of a nanosecond duration:
truncation toward zero. -/
def duration_cast_ms (d_ns : Int) : Int := Int.tdiv d_ns 1000000

/-- The `do { ... } while (elapsed <= timeout_ms)` loop of `GetGsiService`,
entered at the top of the body with the current `elapsed`. `fuel` bounds the
number of iterations; `none` means the bound was reached. -/
def GetGsiService.loop (E : Env σ) (timeout_ms start_time : Int) :
    Nat → Int → σ → Option (Run σ (Option IGsid))
  | 0, _, _ => none
  | fuel + 1, elapsed, s =>
    let r := AcquireIGsid E (timeout_ms - elapsed) s
    match r.val with
    | some gsid => some ⟨some gsid, r.env, r.events⟩
    | none =>
      let n := steady_clock_now E r.env
      let elapsed := duration_cast_ms (n.val - start_time)
      if elapsed ≤ timeout_ms then
        (GetGsiService.loop E timeout_ms start_time fuel elapsed n.env).map
          fun k => ⟨k.val, k.env, r.events ++ n.events ++ k.events⟩
      else
        some ⟨none, n.env, r.events ++ n.events
          ++ [Event.LOG_ERROR "Timed out trying to acquire IGsid interface"]⟩

def GetGsiService (E : Env σ) (fuel : Nat) (timeout_ms : Int) (s : σ) :
    Option (Run σ (Option IGsid)) :=
  let start := steady_clock_now E s
  (GetGsiService.loop E timeout_ms start.val fuel 0 start.env).map
    fun k => ⟨k.val, k.env, start.events ++ k.events⟩

/-- The part of `IImageManager::Open` after `GetGsiService` has returned. -/
def Open.bound (E : Env σ) (dir : String) (gsid : Option IGsid) :
    M σ (Option ImageManagerBinder) := do
  match gsid with
  | none => return none
  | some gsid =>
    let (status, service) ← call (.getClient gsid) (E.getClient gsid)
    match status.isOk, service with
    | true, some service =>
      let (status, manager) ← call (.openImageService service dir)
        (E.openImageService service dir)
      match status.isOk, manager with
      | true, some manager => return some ⟨service, manager⟩
      | _, _ =>
        LOG_ERROR ("Could not acquire IImageManager: " ++ status.exceptionMessage)
        return none
    | _, _ =>
      LOG_ERROR "Could not acquire IGsiService"
      return none

/-- Implements `IImageManager::Open(dir, timeout_ms)`. -/
def Open (E : Env σ) (fuel : Nat) (dir : String) (timeout_ms : Int) (s : σ) :
    Option (Run σ (Option ImageManagerBinder)) :=
  (GetGsiService E fuel timeout_ms s).map fun g =>
    let r := Open.bound E dir g.val g.env
    ⟨r.val, r.env, g.events ++ r.events⟩


/-! ## Classification of events -/

/-- A call on the remote `IImageService` (`manager_`). -/
def Event.isImageServiceCall : Event → Bool
  | .createBackingImage .. => true
  | .deleteBackingImage .. => true
  | .mapImageDevice .. => true
  | .unmapImageDevice .. => true
  | .backingImageExists .. => true
  | .isImageMapped .. => true
  | .getAllBackingImages .. => true
  | .zeroFillNewImage .. => true
  | .removeAllImages .. => true
  | .removeDisabledImages .. => true
  | .getMappedImageDevice .. => true
  | _ => false

/-- A read of a property (the run-state query). -/
def Event.isRunStateRead : Event → Bool
  | .GetProperty .. => true
  | _ => false

/-- A property write (the start signal). -/
def Event.isStartSignal : Event → Bool
  | .SetProperty .. => true
  | _ => false

/-- A bounded wait for a property value. -/
def Event.isStateWait : Event → Bool
  | .WaitForProperty .. => true
  | _ => false

/-- A query of the service manager. -/
def Event.isLookup : Event → Bool
  | .checkService .. => true
  | _ => false

def Event.isGetClient : Event → Bool
  | .getClient .. => true
  | _ => false

def Event.isOpenImageService : Event → Bool
  | .openImageService .. => true
  | _ => false

/-- Any interaction with the process supervisor (init's property service). -/
def Event.isSupervisor (e : Event) : Bool :=
  e.isRunStateRead || e.isStartSignal || e.isStateWait

/-! ## Trace condition for the retry budget

Stated from the description of the retry loop, not from the code: the first
clock reading of a trace is the start; every later reading sets the elapsed
whole milliseconds; an attempt (marked by its run-state read) may begin only
while the elapsed time of the latest reading does not exceed `T`, and a
state-change wait must be given exactly `T - elapsed`, a value between `0`
and `T`. The condition says nothing of the time at which a wait is issued or
ends: the trace carries clock values only where the client reads the clock. -/

def retryBudgetRule (T : Int) : Option Int → Int → List Event → Bool
  | _, _, [] => true
  | none, _, .steady_clock_now t :: rest => retryBudgetRule T (some t) 0 rest
  | some start, _, .steady_clock_now t :: rest =>
    retryBudgetRule T (some start) ((t - start).tdiv 1000000) rest
  | start, elapsed, .GetProperty _ _ :: rest =>
    decide (elapsed ≤ T) && retryBudgetRule T start elapsed rest
  | start, elapsed, .WaitForProperty _ _ bound :: rest =>
    decide (bound = T - elapsed ∧ 0 ≤ bound ∧ bound ≤ T)
      && retryBudgetRule T start elapsed rest
  | start, elapsed, _ :: rest => retryBudgetRule T start elapsed rest

/-! ## A simulated device, used to run the client on concrete inputs -/

/-- State of the simulated device. -/
structure Sim where
  now_ns : Int
  gsid_state : String
  failing_lookups : Nat
deriving DecidableEq, Repr

/-- Behaviour of the simulated device: every property or service-manager call
takes `call_ns`; `ctl.start` and the wait succeed as configured; the service
is registered after `failing_lookups` failed queries when `registers` holds and
never otherwise; every remote call answers `status` and leaves the configured
values in its out-parameter. -/
structure SimCfg where
  call_ns : Int
  start_ok : Bool
  wait_ok : Bool
  registers : Bool
  status : Status
  flag : Bool
  path : String
  images : List String

def simEnv (c : SimCfg) : Env Sim where
  kGsiServiceName := "gsiservice"
  GetProperty := fun _ _ s => (s.gsid_state, { s with now_ns := s.now_ns + c.call_ns })
  SetProperty := fun _ _ s => (c.start_ok, { s with now_ns := s.now_ns + c.call_ns })
  WaitForProperty := fun _ v _ s =>
    if c.wait_ok then (true, { s with now_ns := s.now_ns + c.call_ns, gsid_state := v })
    else (false, { s with now_ns := s.now_ns + c.call_ns })
  usleep := fun usec s => { s with now_ns := s.now_ns + 1000 * usec }
  steady_clock_now := fun s => s.now_ns
  checkService := fun _ s =>
    if c.registers && s.failing_lookups == 0 then
      (some ⟨1⟩, { s with now_ns := s.now_ns + c.call_ns })
    else
      (none, { s with now_ns := s.now_ns + c.call_ns,
                      failing_lookups := s.failing_lookups - 1 })
  getClient := fun _ s => ((c.status, some ⟨2⟩), s)
  openImageService := fun _ _ s => ((c.status, some ⟨3⟩), s)
  createBackingImage := fun _ _ _ _ s => (c.status, s)
  deleteBackingImage := fun _ _ s => (c.status, s)
  mapImageDevice := fun _ _ _ s => ((c.status, ⟨c.path⟩), s)
  unmapImageDevice := fun _ _ s => (c.status, s)
  backingImageExists := fun _ _ s => ((c.status, c.flag), s)
  isImageMapped := fun _ _ s => ((c.status, c.flag), s)
  getAllBackingImages := fun _ s => ((c.status, c.images), s)
  zeroFillNewImage := fun _ _ _ s => (c.status, s)
  removeAllImages := fun _ s => (c.status, s)
  removeDisabledImages := fun _ s => (c.status, s)
  getMappedImageDevice := fun _ _ _ s => ((c.status, c.path), s)

/-- A healthy device: every call takes 1 ms and succeeds. -/
def healthy : SimCfg where
  call_ns := 1000000
  start_ok := true
  wait_ok := true
  registers := true
  status := ⟨true, ""⟩
  flag := true
  path := "/dev/block/dm-7"
  images := ["userdata_gsi", "system_gsi"]

/-- A device whose remote calls all fail in transport after the remote has
already written to the out-parameter. -/
def brokenTransport : SimCfg :=
  { healthy with status := ⟨false, "DEAD_OBJECT"⟩ }

/-- A device on which the service never registers with the service manager. -/
def neverRegisters : SimCfg :=
  { healthy with registers := false }

/-- A device on which `gsid` never reaches "running" and never registers. -/
def neverStarts : SimCfg :=
  { healthy with wait_ok := false, registers := false }

/-- A device on which every call takes 1 s, `gsid` never reaches "running"
and never registers. -/
def stalled : SimCfg :=
  { healthy with call_ns := 1000000000, wait_ok := false, registers := false }

/-- A device on which every call takes 0.1 ms and the service never
registers. -/
def quickCalls : SimCfg :=
  { healthy with call_ns := 100000, registers := false }

/-- A device on which every property or service-manager call takes 5 ms. -/
def slowCalls : SimCfg :=
  { healthy with call_ns := 5000000 }

/-- Device state: `gsid` already running and registered. -/
def simRunning : Sim := ⟨0, "running", 0⟩

/-- Device state: `gsid` stopped; the first lookup after start still fails. -/
def simStopped : Sim := ⟨0, "stopped", 1⟩

/-- Device state: `gsid` running but its first lookup still fails. -/
def simRegistering : Sim := ⟨0, "running", 1⟩

/-- The proxy used in the concrete runs. -/
def simClient : ImageManagerBinder := ⟨⟨2⟩, ⟨3⟩⟩


/-! ## Shared lemmas -/

theorem clamp_cast_eq (t : Int) :
    static_cast_int32 (clamp t INT32_MIN INT32_MAX)
      = max (-2147483648) (min t 2147483647) := by
  unfold static_cast_int32 clamp INT32_MIN INT32_MAX
  split_ifs <;> omega

theorem isEmpty_eq_false_iff (str : String) : str.isEmpty = false ↔ str ≠ "" := by
  rw [← Bool.not_eq_true, String.isEmpty_iff]

/-! ## The forwarding operations -/

/-- C2: on every bound proxy, for every argument and every environment state
(so whatever the remote service would answer), MapImageWithDeviceMapper,
DisableImage and MapAllImages return false, leave the environment exactly as
it was, perform nothing but one error log (no remote call, no run of the
callback), and leave the contents of the out-parameter dev as passed in. -/
theorem unsupported_operations_fail {Opener : Type} (self : ImageManagerBinder)
    (opener : Opener) (name dev : String) (init : List String → M σ Bool) (s : σ) :
    self.MapImageWithDeviceMapper opener name dev s
        = ⟨(false, dev), s,
            [Event.LOG_ERROR "MapImageWithDeviceMapper is not available over binder."]⟩
    ∧ self.DisableImage name s
        = ⟨false, s,
            [Event.LOG_ERROR "ImageManagerBinder::DisableImage is not available over binder"]⟩
    ∧ self.MapAllImages init s
        = ⟨false, s,
            [Event.LOG_ERROR "ImageManagerBinder::MapAllImages not available over binder"]⟩
    ∧ (self.MapImageWithDeviceMapper opener name dev s).events.filter
          Event.isImageServiceCall = []
    ∧ (self.DisableImage name s).events.filter Event.isImageServiceCall = []
    ∧ (self.MapAllImages init s).events.filter Event.isImageServiceCall = [] := by
  refine ⟨rfl, rfl, rfl, rfl, rfl, rfl⟩

/-- C3: for every timeout t and name, MapImageDevice issues exactly one
mapImageDevice call whose timeout argument is max(-2^31, min(t, 2^31 - 1)),
which is t when t fits in 32 signed bits, 2^31 - 1 when t is larger and -2^31
when t is smaller; when the transport status is ok it returns true with the
path of the response in the out-parameter, and otherwise it returns false with
the out-parameter as it was. -/
theorem MapImageDevice_clamps (E : Env σ) (self : ImageManagerBinder) (name : String)
    (t : Int) (path : String) (s : σ) :
    (self.MapImageDevice E name t path s).events.filter Event.isImageServiceCall
        = [Event.mapImageDevice self.manager_ name (max (-2147483648) (min t 2147483647))]
    ∧ (self.MapImageDevice E name t path s).events.head?
        = some (Event.mapImageDevice self.manager_ name
            (static_cast_int32 (clamp t INT32_MIN INT32_MAX)))
    ∧ (-2147483648 ≤ t → t ≤ 2147483647 →
        static_cast_int32 (clamp t INT32_MIN INT32_MAX) = t)
    ∧ (2147483647 < t → static_cast_int32 (clamp t INT32_MIN INT32_MAX) = 2147483647)
    ∧ (t < -2147483648 → static_cast_int32 (clamp t INT32_MIN INT32_MAX) = -2147483648)
    ∧ ((E.mapImageDevice self.manager_ name (max (-2147483648) (min t 2147483647)) s).1.1.isOk
          = true →
        (self.MapImageDevice E name t path s).val
          = (true, (E.mapImageDevice self.manager_ name
                      (max (-2147483648) (min t 2147483647)) s).1.2.path))
    ∧ ((E.mapImageDevice self.manager_ name (max (-2147483648) (min t 2147483647)) s).1.1.isOk
          = false →
        (self.MapImageDevice E name t path s).val = (false, path)) := by
  simp only [ImageManagerBinder.MapImageDevice, bind, M.bind, pure, M.pure, call,
    clamp_cast_eq]
  refine ⟨?_, ?_, by omega, by omega, by omega, ?_, ?_⟩ <;>
  cases h : (E.mapImageDevice self.manager_ name
      (max (-2147483648) (min t 2147483647)) s).1.1.isOk <;>
    simp [h, Event.isImageServiceCall, M.bind, LOG_ERROR, M.pure]

/-- C4 (as stated, refuted): on a device whose getAllBackingImages call fails
in transport after writing two names into the output list,
GetAllBackingImages returns those two names, not the empty collection. -/
theorem GetAllBackingImages_failure_not_empty :
    ((simEnv brokenTransport).getAllBackingImages simClient.manager_ simRunning).1.1.isOk = false
    ∧ (simClient.GetAllBackingImages (simEnv brokenTransport) simRunning).val
        = ["userdata_gsi", "system_gsi"]
    ∧ (simClient.GetAllBackingImages (simEnv brokenTransport) simRunning).val ≠ [] := by
  decide

/-- C4 (amended): whatever the transport status of getAllBackingImages,
GetAllBackingImages issues that one call and returns exactly the contents the
call left in its output list; so on a transport failure it returns the empty
collection when the call left the list empty. -/
theorem GetAllBackingImages_returns_output_list (E : Env σ) (self : ImageManagerBinder)
    (s : σ) :
    (self.GetAllBackingImages E s).val = (E.getAllBackingImages self.manager_ s).1.2
    ∧ (self.GetAllBackingImages E s).events.filter Event.isImageServiceCall
        = [Event.getAllBackingImages self.manager_]
    ∧ ((E.getAllBackingImages self.manager_ s).1.1.isOk = false →
        (E.getAllBackingImages self.manager_ s).1.2 = [] →
        (self.GetAllBackingImages E s).val = []) := by
  simp only [ImageManagerBinder.GetAllBackingImages, bind, M.bind, pure, M.pure, call]
  cases h : (E.getAllBackingImages self.manager_ s).1.1.isOk <;>
    simp [h, Event.isImageServiceCall, M.bind, LOG_ERROR, M.pure]

/-- C5: GetMappedImageDevice returns true exactly when the transport status
of getMappedImageDevice is ok and the device path left by the call is not the
empty string; a transport-ok response with the empty path yields false; and
when it returns true the out-parameter holds the returned path. -/
theorem GetMappedImageDevice_true_iff (E : Env σ) (self : ImageManagerBinder)
    (name device : String) (s : σ) :
    ((self.GetMappedImageDevice E name device s).val.1 = true ↔
        (E.getMappedImageDevice self.manager_ name device s).1.1.isOk = true
        ∧ (E.getMappedImageDevice self.manager_ name device s).1.2 ≠ "")
    ∧ ((E.getMappedImageDevice self.manager_ name device s).1.1.isOk = true →
        (E.getMappedImageDevice self.manager_ name device s).1.2 = "" →
        (self.GetMappedImageDevice E name device s).val.1 = false)
    ∧ ((self.GetMappedImageDevice E name device s).val.1 = true →
        (self.GetMappedImageDevice E name device s).val.2
          = (E.getMappedImageDevice self.manager_ name device s).1.2)
    ∧ (self.GetMappedImageDevice E name device s).events.filter Event.isImageServiceCall
        = [Event.getMappedImageDevice self.manager_ name] := by
  simp only [ImageManagerBinder.GetMappedImageDevice, bind, M.bind, pure, M.pure, call]
  cases h : (E.getMappedImageDevice self.manager_ name device s).1.1.isOk <;>
    simp [h, Event.isImageServiceCall, M.bind, LOG_ERROR, M.pure, isEmpty_eq_false_iff,
      String.isEmpty_iff]

/-! ## One acquisition attempt -/

theorem AcquireIGsid_running (E : Env σ) (b : Int) (s : σ)
    (h : (E.GetProperty "init.svc.gsid" "" s).1 = "running") :
    AcquireIGsid E b s
      = ⟨(E.checkService E.kGsiServiceName (E.GetProperty "init.svc.gsid" "" s).2).1,
         (E.checkService E.kGsiServiceName (E.GetProperty "init.svc.gsid" "" s).2).2,
         [Event.GetProperty "init.svc.gsid" "", Event.checkService E.kGsiServiceName]⟩ := by
  simp [AcquireIGsid, bind, M.bind, pure, M.pure, call, LOG_ERROR, h, interface_cast]

theorem AcquireIGsid_start_failed (E : Env σ) (b : Int) (s : σ)
    (h : (E.GetProperty "init.svc.gsid" "" s).1 ≠ "running")
    (hs : (E.SetProperty "ctl.start" "gsid" (E.GetProperty "init.svc.gsid" "" s).2).1 = false) :
    AcquireIGsid E b s
      = ⟨none, (E.SetProperty "ctl.start" "gsid" (E.GetProperty "init.svc.gsid" "" s).2).2,
         [Event.GetProperty "init.svc.gsid" "", Event.SetProperty "ctl.start" "gsid",
          Event.LOG_ERROR "Could not start the gsid service"]⟩ := by
  simp [AcquireIGsid, bind, M.bind, pure, M.pure, call, LOG_ERROR, h, hs, interface_cast]

theorem AcquireIGsid_wait_failed (E : Env σ) (b : Int) (s : σ)
    (h : (E.GetProperty "init.svc.gsid" "" s).1 ≠ "running")
    (hs : (E.SetProperty "ctl.start" "gsid" (E.GetProperty "init.svc.gsid" "" s).2).1 = true)
    (hw : (E.WaitForProperty "init.svc.gsid" "running" b
            (E.SetProperty "ctl.start" "gsid" (E.GetProperty "init.svc.gsid" "" s).2).2).1
          = false) :
    AcquireIGsid E b s
      = ⟨none,
         (E.WaitForProperty "init.svc.gsid" "running" b
            (E.SetProperty "ctl.start" "gsid" (E.GetProperty "init.svc.gsid" "" s).2).2).2,
         [Event.GetProperty "init.svc.gsid" "", Event.SetProperty "ctl.start" "gsid",
          Event.WaitForProperty "init.svc.gsid" "running" b,
          Event.LOG_ERROR "Could not start the gsid service"]⟩ := by
  simp [AcquireIGsid, bind, M.bind, pure, M.pure, call, LOG_ERROR, h, hs, hw, interface_cast]

theorem AcquireIGsid_started (E : Env σ) (b : Int) (s : σ)
    (h : (E.GetProperty "init.svc.gsid" "" s).1 ≠ "running")
    (hs : (E.SetProperty "ctl.start" "gsid" (E.GetProperty "init.svc.gsid" "" s).2).1 = true)
    (hw : (E.WaitForProperty "init.svc.gsid" "running" b
            (E.SetProperty "ctl.start" "gsid" (E.GetProperty "init.svc.gsid" "" s).2).2).1
          = true) :
    AcquireIGsid E b s
      = ⟨(E.checkService E.kGsiServiceName (E.usleep 250000
            (E.WaitForProperty "init.svc.gsid" "running" b
              (E.SetProperty "ctl.start" "gsid"
                (E.GetProperty "init.svc.gsid" "" s).2).2).2)).1,
         (E.checkService E.kGsiServiceName (E.usleep 250000
            (E.WaitForProperty "init.svc.gsid" "running" b
              (E.SetProperty "ctl.start" "gsid"
                (E.GetProperty "init.svc.gsid" "" s).2).2).2)).2,
         [Event.GetProperty "init.svc.gsid" "", Event.SetProperty "ctl.start" "gsid",
          Event.WaitForProperty "init.svc.gsid" "running" b, Event.usleep 250000,
          Event.checkService E.kGsiServiceName]⟩ := by
  simp [AcquireIGsid, bind, M.bind, pure, M.pure, call, LOG_ERROR, h, hs, hw, interface_cast]

theorem Open_bound_none (E : Env σ) (dir : String) (s : σ) :
    Open.bound E dir none s = ⟨none, s, []⟩ := rfl

/-- C9: once GetGsiService has produced a handle, Open returns a client
exactly when getClient reports ok with a non-null service and
openImageService(dir) on that service reports ok with a non-null manager, the
client holding that service and manager; in every case the interactions after
the loop contain getClient once, openImageService at most once, no lookup, no
run-state read, no start signal and no wait, and openImageService is not
issued when getClient reported failure or a null service. -/
theorem Open_after_handle (E : Env σ) (fuel : Nat) (dir : String) (T : Int) (s : σ)
    (g : Run σ (Option IGsid)) (gsid : IGsid)
    (hg : GetGsiService E fuel T s = some g) (hv : g.val = some gsid) :
    ∃ r tail, Open E fuel dir T s = some r ∧ r.events = g.events ++ tail
      ∧ (∀ c : ImageManagerBinder, r.val = some c ↔
          ((E.getClient gsid g.env).1.1.isOk = true
            ∧ (E.getClient gsid g.env).1.2 = some c.service_
            ∧ (E.openImageService c.service_ dir (E.getClient gsid g.env).2).1.1.isOk = true
            ∧ (E.openImageService c.service_ dir (E.getClient gsid g.env).2).1.2
                = some c.manager_))
      ∧ tail.countP Event.isGetClient = 1
      ∧ tail.countP Event.isOpenImageService ≤ 1
      ∧ tail.countP Event.isLookup = 0
      ∧ tail.countP Event.isSupervisor = 0
      ∧ (¬ ((E.getClient gsid g.env).1.1.isOk = true
              ∧ (E.getClient gsid g.env).1.2.isSome = true) →
          r.val = none ∧ tail.countP Event.isOpenImageService = 0) := by
  refine ⟨⟨(Open.bound E dir g.val g.env).val, (Open.bound E dir g.val g.env).env,
    g.events ++ (Open.bound E dir g.val g.env).events⟩,
    (Open.bound E dir g.val g.env).events, by simp [Open, hg], rfl, ?_⟩
  rw [hv]
  simp only [Open.bound, bind, M.bind, pure, M.pure, call, LOG_ERROR]
  rcases h2 : (E.getClient gsid g.env).1.2 with _ | service
  · cases h1 : (E.getClient gsid g.env).1.1.isOk <;>
      simp [h1, h2, M.bind, LOG_ERROR, M.pure, call, List.countP_cons, Event.isGetClient,
        Event.isOpenImageService, Event.isLookup, Event.isSupervisor, Event.isRunStateRead,
        Event.isStartSignal, Event.isStateWait]
  · cases h1 : (E.getClient gsid g.env).1.1.isOk
    · simp [h1, h2, M.bind, LOG_ERROR, M.pure, call, List.countP_cons, Event.isGetClient,
        Event.isOpenImageService, Event.isLookup, Event.isSupervisor, Event.isRunStateRead,
        Event.isStartSignal, Event.isStateWait]
    · rcases h4 : (E.openImageService service dir (E.getClient gsid g.env).2).1.2
        with _ | manager <;>
      cases h3 : (E.openImageService service dir (E.getClient gsid g.env).2).1.1.isOk <;>
        simp [h1, h2, h3, h4, M.bind, LOG_ERROR, M.pure, call, List.countP_cons,
          Event.isGetClient, Event.isOpenImageService, Event.isLookup, Event.isSupervisor,
          Event.isRunStateRead, Event.isStartSignal, Event.isStateWait]
      · rintro ⟨sv, mg⟩ rfl
        simp [h3]
      · rintro ⟨sv, mg⟩ rfl
        simp [h4]
      · rintro ⟨sv, mg⟩ rfl
        simp [h3]
      · rintro ⟨sv, mg⟩
        constructor
        · intro h
          cases h
          exact ⟨rfl, h3, h4⟩
        · rintro ⟨rfl, -, h5⟩
          rw [h4] at h5
          cases h5
          rfl

/-! ## The retry loop -/

theorem loop_success (E : Env σ) (T start : Int) (fuel : Nat) (elapsed : Int) (s : σ)
    (gsid : IGsid) (h : (AcquireIGsid E (T - elapsed) s).val = some gsid) :
    GetGsiService.loop E T start (fuel + 1) elapsed s
      = some ⟨some gsid, (AcquireIGsid E (T - elapsed) s).env,
          (AcquireIGsid E (T - elapsed) s).events⟩ := by
  simp [GetGsiService.loop, h]

theorem loop_retry (E : Env σ) (T start : Int) (fuel : Nat) (elapsed : Int) (s : σ)
    (h : (AcquireIGsid E (T - elapsed) s).val = none)
    (he : duration_cast_ms
      (E.steady_clock_now (AcquireIGsid E (T - elapsed) s).env - start) ≤ T) :
    GetGsiService.loop E T start (fuel + 1) elapsed s
      = (GetGsiService.loop E T start fuel
          (duration_cast_ms (E.steady_clock_now (AcquireIGsid E (T - elapsed) s).env - start))
          (AcquireIGsid E (T - elapsed) s).env).map
        fun k => ⟨k.val, k.env, (AcquireIGsid E (T - elapsed) s).events
          ++ [Event.steady_clock_now
                (E.steady_clock_now (AcquireIGsid E (T - elapsed) s).env)]
          ++ k.events⟩ := by
  simp [GetGsiService.loop, h, steady_clock_now, he]

theorem loop_timed_out (E : Env σ) (T start : Int) (fuel : Nat) (elapsed : Int) (s : σ)
    (h : (AcquireIGsid E (T - elapsed) s).val = none)
    (he : T < duration_cast_ms
      (E.steady_clock_now (AcquireIGsid E (T - elapsed) s).env - start)) :
    GetGsiService.loop E T start (fuel + 1) elapsed s
      = some ⟨none, (AcquireIGsid E (T - elapsed) s).env,
          (AcquireIGsid E (T - elapsed) s).events
            ++ [Event.steady_clock_now
                  (E.steady_clock_now (AcquireIGsid E (T - elapsed) s).env),
                Event.LOG_ERROR "Timed out trying to acquire IGsid interface"]⟩ := by
  simp [GetGsiService.loop, h, steady_clock_now, not_le.mpr he]

theorem AcquireIGsid_one_read (E : Env σ) (b : Int) (s : σ) :
    (AcquireIGsid E b s).events.countP Event.isRunStateRead = 1 := by
  by_cases h : (E.GetProperty "init.svc.gsid" "" s).1 = "running"
  · rw [AcquireIGsid_running E b s h]
    simp [List.countP_cons, Event.isRunStateRead]
  · cases hs : (E.SetProperty "ctl.start" "gsid" (E.GetProperty "init.svc.gsid" "" s).2).1
    · rw [AcquireIGsid_start_failed E b s h hs]
      simp [List.countP_cons, Event.isRunStateRead]
    · cases hw : (E.WaitForProperty "init.svc.gsid" "running" b
          (E.SetProperty "ctl.start" "gsid" (E.GetProperty "init.svc.gsid" "" s).2).2).1
      · rw [AcquireIGsid_wait_failed E b s h hs hw]
        simp [List.countP_cons, Event.isRunStateRead]
      · rw [AcquireIGsid_started E b s h hs hw]
        simp [List.countP_cons, Event.isRunStateRead]

theorem AcquireIGsid_first_event (E : Env σ) (b : Int) (s : σ) :
    (AcquireIGsid E b s).events.head? = some (Event.GetProperty "init.svc.gsid" "") := by
  by_cases h : (E.GetProperty "init.svc.gsid" "" s).1 = "running"
  · rw [AcquireIGsid_running E b s h]
    rfl
  · cases hs : (E.SetProperty "ctl.start" "gsid" (E.GetProperty "init.svc.gsid" "" s).2).1
    · rw [AcquireIGsid_start_failed E b s h hs]
      rfl
    · cases hw : (E.WaitForProperty "init.svc.gsid" "running" b
          (E.SetProperty "ctl.start" "gsid" (E.GetProperty "init.svc.gsid" "" s).2).2).1
      · rw [AcquireIGsid_wait_failed E b s h hs hw]
        rfl
      · rw [AcquireIGsid_started E b s h hs hw]
        rfl

theorem AcquireIGsid_unresolved (E : Env σ) (b : Int) (s : σ)
    (hlookup : ∀ name s, (E.checkService name s).1 = none) :
    (AcquireIGsid E b s).val = none := by
  by_cases h : (E.GetProperty "init.svc.gsid" "" s).1 = "running"
  · rw [AcquireIGsid_running E b s h]
    exact hlookup _ _
  · cases hs : (E.SetProperty "ctl.start" "gsid" (E.GetProperty "init.svc.gsid" "" s).2).1
    · rw [AcquireIGsid_start_failed E b s h hs]
    · cases hw : (E.WaitForProperty "init.svc.gsid" "running" b
          (E.SetProperty "ctl.start" "gsid" (E.GetProperty "init.svc.gsid" "" s).2).2).1
      · rw [AcquireIGsid_wait_failed E b s h hs hw]
      · rw [AcquireIGsid_started E b s h hs hw]
        exact hlookup _ _

theorem retryBudgetRule_attempt (E : Env σ) (T : Int) (start : Option Int) (e : Int)
    (s : σ) (rest : List Event) (h0 : 0 ≤ e) (hT : e ≤ T) :
    retryBudgetRule T start e ((AcquireIGsid E (T - e) s).events ++ rest)
      = retryBudgetRule T start e rest := by
  have hb : (T - e = T - e ∧ 0 ≤ T - e ∧ T - e ≤ T) := ⟨rfl, by omega, by omega⟩
  by_cases h : (E.GetProperty "init.svc.gsid" "" s).1 = "running"
  · rw [AcquireIGsid_running E _ s h]
    cases start <;> simp [retryBudgetRule, hT]
  · cases hs : (E.SetProperty "ctl.start" "gsid" (E.GetProperty "init.svc.gsid" "" s).2).1
    · rw [AcquireIGsid_start_failed E _ s h hs]
      cases start <;> simp [retryBudgetRule, hT]
    · cases hw : (E.WaitForProperty "init.svc.gsid" "running" (T - e)
          (E.SetProperty "ctl.start" "gsid" (E.GetProperty "init.svc.gsid" "" s).2).2).1
      · rw [AcquireIGsid_wait_failed E _ s h hs hw]
        cases start <;> simp [retryBudgetRule, hT, h0]
      · rw [AcquireIGsid_started E _ s h hs hw]
        cases start <;> simp [retryBudgetRule, hT, h0]

theorem duration_cast_ms_bounds (d : Int) (h : 0 ≤ d) :
    duration_cast_ms d * 1000000 ≤ d ∧ d < (duration_cast_ms d + 1) * 1000000 := by
  unfold duration_cast_ms
  rw [Int.tdiv_eq_ediv h (by norm_num)]
  omega

theorem loop_unresolved (E : Env σ) (T start : Int)
    (hlookup : ∀ name s, (E.checkService name s).1 = none)
    (hclock : ∀ b s, (AcquireIGsid E b s).val = none →
      E.steady_clock_now s + 1000000 ≤ E.steady_clock_now (AcquireIGsid E b s).env) :
    ∀ (fuel : Nat) (e : Int) (s : σ), 0 ≤ e → e ≤ T → T - e < fuel →
      start + e * 1000000 ≤ E.steady_clock_now s →
      ∃ r, GetGsiService.loop E T start fuel e s = some r ∧ r.val = none
        ∧ (r.events.countP Event.isRunStateRead : Int) ≤ T - e + 1
        ∧ retryBudgetRule T (some start) e r.events = true := by
  intro fuel
  induction fuel with
  | zero => intro e s h0 hT hf _; omega
  | succ fuel ih =>
    intro e s h0 hT hf hs
    have hnone := AcquireIGsid_unresolved E (T - e) s hlookup
    have hadv := hclock (T - e) s hnone
    have hd : 0 ≤ E.steady_clock_now (AcquireIGsid E (T - e) s).env - start := by
      nlinarith
    have hb := duration_cast_ms_bounds _ hd
    have he1 : e + 1 ≤ duration_cast_ms
        (E.steady_clock_now (AcquireIGsid E (T - e) s).env - start) := by
      nlinarith
    by_cases hle : duration_cast_ms
        (E.steady_clock_now (AcquireIGsid E (T - e) s).env - start) ≤ T
    · obtain ⟨k, hk, hkv, hkc, hkd⟩ := ih _ (AcquireIGsid E (T - e) s).env
        (by omega) hle (by omega) (by linarith [hb.1])
      refine ⟨⟨k.val, k.env, (AcquireIGsid E (T - e) s).events
          ++ [Event.steady_clock_now (E.steady_clock_now (AcquireIGsid E (T - e) s).env)]
          ++ k.events⟩,
        by rw [loop_retry E T start fuel e s hnone hle, hk]; rfl, hkv, ?_, ?_⟩
      · simp only [List.countP_append, AcquireIGsid_one_read]
        simp [List.countP_cons, Event.isRunStateRead]
        omega
      · simp only [List.append_assoc]
        rw [retryBudgetRule_attempt E T _ e s _ h0 hT]
        simpa [retryBudgetRule] using hkd
    · refine ⟨_, loop_timed_out E T start fuel e s hnone (not_le.mp hle), rfl, ?_, ?_⟩
      · simp only [List.countP_append, AcquireIGsid_one_read]
        simp [List.countP_cons, Event.isRunStateRead]
        omega
      · rw [retryBudgetRule_attempt E T _ e s _ h0 hT]
        simp [retryBudgetRule]

/-- C7 (amended): for every timeout T ≥ 0, when the lookup never resolves and
every failed attempt advances the monotonic clock by at least 1 ms, Open
returns absent within T + 1 iterations of the retry loop, having made at most
T + 1 attempts; every attempt starts while the elapsed time of the latest
clock reading does not exceed T, and every state-change wait is given exactly
T minus that elapsed time, a value between 0 and T. -/
theorem Open_unresolved_terminates (E : Env σ) (dir : String) (T : Int) (s : σ)
    (hT : 0 ≤ T)
    (hlookup : ∀ name s, (E.checkService name s).1 = none)
    (hclock : ∀ b s, (AcquireIGsid E b s).val = none →
      E.steady_clock_now s + 1000000 ≤ E.steady_clock_now (AcquireIGsid E b s).env) :
    ∃ r, Open E (T.toNat + 1) dir T s = some r ∧ r.val = none
      ∧ r.events.countP Event.isRunStateRead ≤ T.toNat + 1
      ∧ retryBudgetRule T none 0 r.events = true := by
  obtain ⟨k, hk, hkv, hkc, hkd⟩ := loop_unresolved E T (E.steady_clock_now s) hlookup hclock
    (T.toNat + 1) 0 s le_rfl hT (by push_cast; omega) (by omega)
  refine ⟨⟨none, k.env, [Event.steady_clock_now (E.steady_clock_now s)] ++ k.events ++ []⟩,
    ?_, rfl, ?_, ?_⟩
  · simp [Open, GetGsiService, steady_clock_now, hk, hkv, Open_bound_none]
  · simp [List.countP_cons, Event.isRunStateRead]
    omega
  · simpa [retryBudgetRule] using hkd


/-- C7 (as stated, refuted): on a device where every call takes 1 s, the wait
fails and the service never registers (so the lookup never resolves and every
failed attempt advances the clock by at least 1 ms), Open with a timeout of
7 ms issues its state-change wait with bound 7 in the state reached after the
run-state read and the start signal, 2000 ms after the start, and the wait
returns at 3000 ms: it runs past the 7 ms deadline. -/
theorem wait_runs_past_deadline :
    (Open (simEnv stalled) 8 "/data/gsi" 7 simStopped).map (fun r => (r.val, r.events))
        = some (none,
            [Event.steady_clock_now 0,
             Event.GetProperty "init.svc.gsid" "", Event.SetProperty "ctl.start" "gsid",
             Event.WaitForProperty "init.svc.gsid" "running" 7,
             Event.LOG_ERROR "Could not start the gsid service",
             Event.steady_clock_now 3000000000,
             Event.LOG_ERROR "Timed out trying to acquire IGsid interface"])
    ∧ ((simEnv stalled).SetProperty "ctl.start" "gsid"
          ((simEnv stalled).GetProperty "init.svc.gsid" "" simStopped).2).2
        = ⟨2000000000, "stopped", 1⟩
    ∧ AcquireIGsid (simEnv stalled) (7 - 0) simStopped
        = ⟨none,
            ((simEnv stalled).WaitForProperty "init.svc.gsid" "running" 7
              ⟨2000000000, "stopped", 1⟩).2,
            [Event.GetProperty "init.svc.gsid" "", Event.SetProperty "ctl.start" "gsid",
             Event.WaitForProperty "init.svc.gsid" "running" 7,
             Event.LOG_ERROR "Could not start the gsid service"]⟩
    ∧ duration_cast_ms ((simEnv stalled).steady_clock_now ⟨2000000000, "stopped", 1⟩
        - (simEnv stalled).steady_clock_now simStopped) = 2000
    ∧ duration_cast_ms ((simEnv stalled).steady_clock_now
          ((simEnv stalled).WaitForProperty "init.svc.gsid" "running" 7
            ⟨2000000000, "stopped", 1⟩).2
        - (simEnv stalled).steady_clock_now simStopped) = 3000
    ∧ (∀ name s, ((simEnv stalled).checkService name s).1 = none)
    ∧ (∀ b s, (AcquireIGsid (simEnv stalled) b s).val = none →
        (simEnv stalled).steady_clock_now s + 1000000
          ≤ (simEnv stalled).steady_clock_now (AcquireIGsid (simEnv stalled) b s).env) := by
  refine ⟨by decide, rfl, rfl, by decide, by decide, fun _ _ => rfl, ?_⟩
  intro b s _
  by_cases h : ((simEnv stalled).GetProperty "init.svc.gsid" "" s).1 = "running"
  · rw [AcquireIGsid_running _ b s h]
    simp [simEnv, stalled, healthy]
    omega
  · rw [AcquireIGsid_wait_failed _ b s h rfl rfl]
    simp [simEnv, stalled, healthy]
    omega

/-- C7, applied: with a timeout of 7 ms on a stopped device where each call
takes 1 ms, the wait always fails and the service never registers; the
attempts start at 0, 3 and 6 ms elapsed with wait bounds 7, 4 and 1. -/
theorem Open_unresolved_terminates_witness :
    (0 : Int) ≤ 7
    ∧ ∃ r, Open (simEnv neverStarts) ((7 : Int).toNat + 1) "/data/gsi" 7 simStopped = some r
        ∧ r.val = none
        ∧ r.events.countP Event.isRunStateRead ≤ (7 : Int).toNat + 1
        ∧ retryBudgetRule 7 none 0 r.events = true :=
  ⟨by decide,
   Open_unresolved_terminates (simEnv neverStarts) "/data/gsi" 7 simStopped (by decide)
    (fun _ _ => rfl)
    (by
      intro b s _
      by_cases h : ((simEnv neverStarts).GetProperty "init.svc.gsid" "" s).1 = "running"
      · rw [AcquireIGsid_running _ b s h]
        simp [simEnv, neverStarts, healthy]
      · rw [AcquireIGsid_wait_failed _ b s h rfl rfl]
        simp [simEnv, neverStarts, healthy]
        omega)⟩

/-- C9, applied: on a healthy running device the loop yields the handle at
once and Open goes on to getClient and openImageService. -/
theorem Open_after_handle_witness :
    GetGsiService (simEnv healthy) 1 500 simRunning
        = some ⟨some ⟨1⟩, ⟨2000000, "running", 0⟩,
            [Event.steady_clock_now 0, Event.GetProperty "init.svc.gsid" "",
             Event.checkService "gsiservice"]⟩
    ∧ ∃ r tail, Open (simEnv healthy) 1 "/data/gsi" 500 simRunning = some r
      ∧ r.events = [Event.steady_clock_now 0, Event.GetProperty "init.svc.gsid" "",
             Event.checkService "gsiservice"] ++ tail
      ∧ (∀ c : ImageManagerBinder, r.val = some c ↔
          (((simEnv healthy).getClient ⟨1⟩ ⟨2000000, "running", 0⟩).1.1.isOk = true
            ∧ ((simEnv healthy).getClient ⟨1⟩ ⟨2000000, "running", 0⟩).1.2 = some c.service_
            ∧ ((simEnv healthy).openImageService c.service_ "/data/gsi"
                ((simEnv healthy).getClient ⟨1⟩ ⟨2000000, "running", 0⟩).2).1.1.isOk = true
            ∧ ((simEnv healthy).openImageService c.service_ "/data/gsi"
                ((simEnv healthy).getClient ⟨1⟩ ⟨2000000, "running", 0⟩).2).1.2
                = some c.manager_))
      ∧ tail.countP Event.isGetClient = 1
      ∧ tail.countP Event.isOpenImageService ≤ 1
      ∧ tail.countP Event.isLookup = 0
      ∧ tail.countP Event.isSupervisor = 0
      ∧ (¬ (((simEnv healthy).getClient ⟨1⟩ ⟨2000000, "running", 0⟩).1.1.isOk = true
              ∧ ((simEnv healthy).getClient ⟨1⟩ ⟨2000000, "running", 0⟩).1.2.isSome = true) →
          r.val = none ∧ tail.countP Event.isOpenImageService = 0) :=
  ⟨rfl, Open_after_handle (simEnv healthy) 1 "/data/gsi" 500 simRunning
    ⟨some ⟨1⟩, ⟨2000000, "running", 0⟩,
      [Event.steady_clock_now 0, Event.GetProperty "init.svc.gsid" "",
       Event.checkService "gsiservice"]⟩ ⟨1⟩ rfl rfl⟩

/-! ## The retry decision -/

/-- C6 (as stated, refuted): on a device where every call takes 5 ms and the
first lookup fails, with a timeout of 10 ms, the first attempt fails and the
elapsed time measured after it equals the timeout; nevertheless a second
attempt is made, with budget 0, and GetGsiService returns the handle. -/
theorem GetGsiService_retries_at_equal_elapsed :
    (AcquireIGsid (simEnv slowCalls) (10 - 0) simRegistering).val = none
    ∧ duration_cast_ms ((simEnv slowCalls).steady_clock_now
        (AcquireIGsid (simEnv slowCalls) (10 - 0) simRegistering).env - 0) = 10
    ∧ (GetGsiService (simEnv slowCalls) 2 10 simRegistering).map (fun r => (r.val, r.events))
        = some (some ⟨1⟩,
            [Event.steady_clock_now 0,
             Event.GetProperty "init.svc.gsid" "", Event.checkService "gsiservice",
             Event.steady_clock_now 10000000,
             Event.GetProperty "init.svc.gsid" "", Event.checkService "gsiservice"]) := by
  decide

/-- C6 (amended): in GetGsiService, after an attempt fails and the elapsed
whole milliseconds e1 are measured: when e1 ≤ timeout another attempt is made,
with budget timeout - e1 (its interactions follow the clock reading in every
run the loop returns, and its handle, if it obtains one, is the result); when
e1 > timeout no further attempt is made and the result is absent. -/
theorem GetGsiService_retry_rule (E : Env σ) (T start : Int) (fuel : Nat) (elapsed : Int)
    (s : σ) (a : Run σ (Option IGsid)) (e1 : Int)
    (ha : AcquireIGsid E (T - elapsed) s = a) (hfail : a.val = none)
    (he1 : duration_cast_ms (E.steady_clock_now a.env - start) = e1) :
    (e1 ≤ T →
      (∀ r, GetGsiService.loop E T start (fuel + 2) elapsed s = some r →
        a.events ++ [Event.steady_clock_now (E.steady_clock_now a.env)]
          ++ (AcquireIGsid E (T - e1) a.env).events <+: r.events)
      ∧ (∀ gsid, (AcquireIGsid E (T - e1) a.env).val = some gsid →
        GetGsiService.loop E T start (fuel + 2) elapsed s
          = some ⟨some gsid, (AcquireIGsid E (T - e1) a.env).env,
              a.events ++ [Event.steady_clock_now (E.steady_clock_now a.env)]
                ++ (AcquireIGsid E (T - e1) a.env).events⟩))
    ∧ (T < e1 →
      GetGsiService.loop E T start (fuel + 1) elapsed s
        = some ⟨none, a.env,
            a.events ++ [Event.steady_clock_now (E.steady_clock_now a.env),
              Event.LOG_ERROR "Timed out trying to acquire IGsid interface"]⟩) := by
  subst ha he1
  refine ⟨fun hle => ⟨?_, ?_⟩, fun hlt => loop_timed_out E T start fuel elapsed s hfail hlt⟩
  · intro r hr
    rw [loop_retry E T start (fuel + 1) elapsed s hfail hle] at hr
    cases hv : (AcquireIGsid E (T - duration_cast_ms (E.steady_clock_now
        (AcquireIGsid E (T - elapsed) s).env - start)) (AcquireIGsid E (T - elapsed) s).env).val
      with
    | some gsid =>
      rw [loop_success E T start fuel _ _ gsid hv] at hr
      simp only [Option.map_some', Option.some.injEq] at hr
      rw [← hr]
    | none =>
      by_cases hle2 : duration_cast_ms (E.steady_clock_now (AcquireIGsid E
          (T - duration_cast_ms (E.steady_clock_now
            (AcquireIGsid E (T - elapsed) s).env - start))
          (AcquireIGsid E (T - elapsed) s).env).env - start) ≤ T
      · rw [loop_retry E T start fuel _ _ hv hle2] at hr
        cases hk : GetGsiService.loop E T start fuel
            (duration_cast_ms (E.steady_clock_now (AcquireIGsid E
              (T - duration_cast_ms (E.steady_clock_now
                (AcquireIGsid E (T - elapsed) s).env - start))
              (AcquireIGsid E (T - elapsed) s).env).env - start))
            (AcquireIGsid E (T - duration_cast_ms (E.steady_clock_now
                (AcquireIGsid E (T - elapsed) s).env - start))
              (AcquireIGsid E (T - elapsed) s).env).env with
        | none => simp [hk] at hr
        | some k =>
          simp only [hk, Option.map_some', Option.some.injEq] at hr
          rw [← hr]
          simp only [List.append_assoc]
          exact (List.prefix_append_right_inj _).mpr
            ((List.prefix_append_right_inj _).mpr (List.prefix_append _ _))
      · rw [loop_timed_out E T start fuel _ _ hv (not_le.mp hle2)] at hr
        simp only [Option.map_some', Option.some.injEq] at hr
        rw [← hr]
        simp only [List.append_assoc]
        exact (List.prefix_append_right_inj _).mpr
          ((List.prefix_append_right_inj _).mpr (List.prefix_append _ _))
  · intro gsid hv
    rw [loop_retry E T start (fuel + 1) elapsed s hfail hle,
      loop_success E T start fuel _ _ gsid hv]
    rfl

/-- C6 (amended), applied twice: with timeout 10 ms and 10 ms elapsed a second
attempt is made and yields the handle; with timeout 5 ms and 10 ms elapsed the
loop ends and the result is absent. -/
theorem GetGsiService_retry_rule_witness :
    GetGsiService.loop (simEnv slowCalls) 10 0 2 0 simRegistering
        = some ⟨some ⟨1⟩, ⟨20000000, "running", 0⟩,
            [Event.GetProperty "init.svc.gsid" "", Event.checkService "gsiservice",
             Event.steady_clock_now 10000000,
             Event.GetProperty "init.svc.gsid" "", Event.checkService "gsiservice"]⟩
    ∧ GetGsiService.loop (simEnv slowCalls) 5 0 1 0 simRegistering
        = some ⟨none, ⟨10000000, "running", 0⟩,
            [Event.GetProperty "init.svc.gsid" "", Event.checkService "gsiservice",
             Event.steady_clock_now 10000000,
             Event.LOG_ERROR "Timed out trying to acquire IGsid interface"]⟩ :=
  ⟨((GetGsiService_retry_rule (simEnv slowCalls) 10 0 0 0 simRegistering
      ⟨none, ⟨10000000, "running", 0⟩,
        [Event.GetProperty "init.svc.gsid" "", Event.checkService "gsiservice"]⟩ 10
      rfl rfl rfl).1 (by decide)).2 ⟨1⟩ rfl,
   (GetGsiService_retry_rule (simEnv slowCalls) 5 0 0 0 simRegistering
      ⟨none, ⟨10000000, "running", 0⟩,
        [Event.GetProperty "init.svc.gsid" "", Event.checkService "gsiservice"]⟩ 10
      rfl rfl rfl).2 (by decide)⟩

/-! ## Non-positive timeouts -/

/-- C1 (as stated, refuted): with timeout 0 on a healthy running device, Open
reads the run-state and returns a client; with timeout -5 on a stopped device,
Open reads the run-state, sends the start signal and waits. -/
theorem nonpositive_timeout_still_attempts :
    (Open (simEnv healthy) 1 "/data/gsi" 0 simRunning).map (fun r => (r.val, r.events))
        = some (some simClient,
            [Event.steady_clock_now 0,
             Event.GetProperty "init.svc.gsid" "", Event.checkService "gsiservice",
             Event.getClient ⟨1⟩, Event.openImageService ⟨2⟩ "/data/gsi"])
    ∧ (Open (simEnv healthy) 1 "/data/gsi" (-5) simStopped).map (fun r => (r.val, r.events))
        = some (none,
            [Event.steady_clock_now 0,
             Event.GetProperty "init.svc.gsid" "", Event.SetProperty "ctl.start" "gsid",
             Event.WaitForProperty "init.svc.gsid" "running" (-5), Event.usleep 250000,
             Event.checkService "gsiservice",
             Event.steady_clock_now 254000000,
             Event.LOG_ERROR "Timed out trying to acquire IGsid interface"]) := by
  decide

/-- C1 (amended): for every timeout ≤ 0, Open performs a first acquisition
attempt with the timeout as its budget, beginning with the read of the
run-state: every run Open returns begins with the clock reading followed by the
interactions of that attempt. If the attempt obtains a handle, Open continues
with getClient and openImageService on it. If it fails and the elapsed whole
milliseconds then exceed the timeout (always so for a negative timeout when the
clock has not gone backwards, and for timeout 0 once 1 ms has elapsed), Open
returns absent without a second attempt. If it fails and the elapsed whole
milliseconds do not exceed the timeout, Open goes on with the retry loop from
that elapsed time. -/
theorem Open_nonpositive_timeout (E : Env σ) (fuel : Nat) (dir : String) (T : Int) (s : σ)
    (a : Run σ (Option IGsid)) (e1 : Int) (hT : T ≤ 0) (ha : AcquireIGsid E T s = a)
    (he1 : duration_cast_ms (E.steady_clock_now a.env - E.steady_clock_now s) = e1) :
    a.events.head? = some (Event.GetProperty "init.svc.gsid" "")
    ∧ (∀ r, Open E (fuel + 1) dir T s = some r →
        [Event.steady_clock_now (E.steady_clock_now s)] ++ a.events <+: r.events)
    ∧ (∀ gsid, a.val = some gsid →
        Open E (fuel + 1) dir T s
          = some ⟨(Open.bound E dir (some gsid) a.env).val,
              (Open.bound E dir (some gsid) a.env).env,
              [Event.steady_clock_now (E.steady_clock_now s)] ++ a.events
                ++ (Open.bound E dir (some gsid) a.env).events⟩)
    ∧ ((T < 0 ∧ E.steady_clock_now s ≤ E.steady_clock_now a.env) ∨ 0 < e1 → T < e1)
    ∧ (a.val = none → T < e1 →
        Open E (fuel + 1) dir T s
          = some ⟨none, a.env,
              [Event.steady_clock_now (E.steady_clock_now s)] ++ a.events
                ++ [Event.steady_clock_now (E.steady_clock_now a.env),
                    Event.LOG_ERROR "Timed out trying to acquire IGsid interface"]⟩)
    ∧ (a.val = none → e1 ≤ T →
        Open E (fuel + 1) dir T s
          = (GetGsiService.loop E T (E.steady_clock_now s) fuel e1 a.env).map fun k =>
              ⟨(Open.bound E dir k.val k.env).val, (Open.bound E dir k.val k.env).env,
                [Event.steady_clock_now (E.steady_clock_now s)] ++ a.events
                  ++ [Event.steady_clock_now (E.steady_clock_now a.env)] ++ k.events
                  ++ (Open.bound E dir k.val k.env).events⟩) := by
  subst ha he1
  have hsub : T - 0 = T := by omega
  have hsome : ∀ gsid, (AcquireIGsid E T s).val = some gsid →
      Open E (fuel + 1) dir T s
        = some ⟨(Open.bound E dir (some gsid) (AcquireIGsid E T s).env).val,
            (Open.bound E dir (some gsid) (AcquireIGsid E T s).env).env,
            [Event.steady_clock_now (E.steady_clock_now s)] ++ (AcquireIGsid E T s).events
              ++ (Open.bound E dir (some gsid) (AcquireIGsid E T s).env).events⟩ := by
    intro gsid hv
    have hv' : (AcquireIGsid E (T - 0) s).val = some gsid := by rw [hsub]; exact hv
    simp only [Open, GetGsiService, steady_clock_now,
      loop_success E T (E.steady_clock_now s) fuel 0 s gsid hv', hsub, Option.map_some',
      List.append_assoc]
  have hout : (AcquireIGsid E T s).val = none →
      T < duration_cast_ms
        (E.steady_clock_now (AcquireIGsid E T s).env - E.steady_clock_now s) →
      Open E (fuel + 1) dir T s
        = some ⟨none, (AcquireIGsid E T s).env,
            [Event.steady_clock_now (E.steady_clock_now s)] ++ (AcquireIGsid E T s).events
              ++ [Event.steady_clock_now (E.steady_clock_now (AcquireIGsid E T s).env),
                  Event.LOG_ERROR "Timed out trying to acquire IGsid interface"]⟩ := by
    intro hv hlt
    have hv' : (AcquireIGsid E (T - 0) s).val = none := by rw [hsub]; exact hv
    have hlt' : T < duration_cast_ms (E.steady_clock_now (AcquireIGsid E (T - 0) s).env
        - E.steady_clock_now s) := by rw [hsub]; exact hlt
    simp only [Open, GetGsiService, steady_clock_now,
      loop_timed_out E T (E.steady_clock_now s) fuel 0 s hv' hlt', hsub, Option.map_some',
      Open_bound_none, List.append_assoc, List.append_nil]
  have hgo : (AcquireIGsid E T s).val = none →
      duration_cast_ms
        (E.steady_clock_now (AcquireIGsid E T s).env - E.steady_clock_now s) ≤ T →
      Open E (fuel + 1) dir T s
        = (GetGsiService.loop E T (E.steady_clock_now s) fuel
            (duration_cast_ms
              (E.steady_clock_now (AcquireIGsid E T s).env - E.steady_clock_now s))
            (AcquireIGsid E T s).env).map fun k =>
              ⟨(Open.bound E dir k.val k.env).val, (Open.bound E dir k.val k.env).env,
                [Event.steady_clock_now (E.steady_clock_now s)]
                  ++ (AcquireIGsid E T s).events
                  ++ [Event.steady_clock_now (E.steady_clock_now (AcquireIGsid E T s).env)]
                  ++ k.events
                  ++ (Open.bound E dir k.val k.env).events⟩ := by
    intro hv hle
    have hv' : (AcquireIGsid E (T - 0) s).val = none := by rw [hsub]; exact hv
    have hle' : duration_cast_ms (E.steady_clock_now (AcquireIGsid E (T - 0) s).env
        - E.steady_clock_now s) ≤ T := by rw [hsub]; exact hle
    simp only [Open, GetGsiService, steady_clock_now,
      loop_retry E T (E.steady_clock_now s) fuel 0 s hv' hle', hsub, Option.map_map]
    congr 1
  refine ⟨AcquireIGsid_first_event E T s, ?_, hsome, ?_, hout, hgo⟩
  · intro r hr
    cases hv : (AcquireIGsid E T s).val with
    | some gsid =>
      rw [hsome gsid hv] at hr
      cases hr
      exact List.prefix_append _ _
    | none =>
      by_cases hle : duration_cast_ms
          (E.steady_clock_now (AcquireIGsid E T s).env - E.steady_clock_now s) ≤ T
      · rw [hgo hv hle] at hr
        cases hk : GetGsiService.loop E T (E.steady_clock_now s) fuel
            (duration_cast_ms
              (E.steady_clock_now (AcquireIGsid E T s).env - E.steady_clock_now s))
            (AcquireIGsid E T s).env with
        | none => simp [hk] at hr
        | some k =>
          simp only [hk, Option.map_some', Option.some.injEq] at hr
          rw [← hr]
          simp only [List.append_assoc]
          exact (List.prefix_append_right_inj _).mpr
            ((List.prefix_append_right_inj _).mpr (List.prefix_append _ _))
      · rw [hout hv (not_le.mp hle)] at hr
        cases hr
        exact List.prefix_append _ _
  · rintro (⟨hneg, hmono⟩ | hpos)
    · have := (duration_cast_ms_bounds (E.steady_clock_now (AcquireIGsid E T s).env
        - E.steady_clock_now s) (by omega)).2
      omega
    · omega

/-- C1 (amended), applied: timeout -5 on a stopped healthy device, whose
single attempt starts the service but finds it not yet registered; and
timeout 0 on a running device with 0.1 ms calls where the service never
registers, on which five attempts are made before 1 ms has elapsed. -/
theorem Open_nonpositive_timeout_witness :
    (-5 : Int) ≤ 0
    ∧ Open (simEnv healthy) 1 "/data/gsi" (-5) simStopped
        = some ⟨none, ⟨254000000, "running", 0⟩,
            [Event.steady_clock_now 0,
             Event.GetProperty "init.svc.gsid" "", Event.SetProperty "ctl.start" "gsid",
             Event.WaitForProperty "init.svc.gsid" "running" (-5), Event.usleep 250000,
             Event.checkService "gsiservice",
             Event.steady_clock_now 254000000,
             Event.LOG_ERROR "Timed out trying to acquire IGsid interface"]⟩
    ∧ Open (simEnv quickCalls) 5 "/data/gsi" 0 simRunning
        = some ⟨none, ⟨1000000, "running", 0⟩,
            [Event.steady_clock_now 0,
             Event.GetProperty "init.svc.gsid" "", Event.checkService "gsiservice",
             Event.steady_clock_now 200000,
             Event.GetProperty "init.svc.gsid" "", Event.checkService "gsiservice",
             Event.steady_clock_now 400000,
             Event.GetProperty "init.svc.gsid" "", Event.checkService "gsiservice",
             Event.steady_clock_now 600000,
             Event.GetProperty "init.svc.gsid" "", Event.checkService "gsiservice",
             Event.steady_clock_now 800000,
             Event.GetProperty "init.svc.gsid" "", Event.checkService "gsiservice",
             Event.steady_clock_now 1000000,
             Event.LOG_ERROR "Timed out trying to acquire IGsid interface"]⟩ :=
  ⟨by decide,
   (Open_nonpositive_timeout (simEnv healthy) 0 "/data/gsi" (-5) simStopped
      ⟨none, ⟨254000000, "running", 0⟩,
        [Event.GetProperty "init.svc.gsid" "", Event.SetProperty "ctl.start" "gsid",
         Event.WaitForProperty "init.svc.gsid" "running" (-5), Event.usleep 250000,
         Event.checkService "gsiservice"]⟩ 254
      (by decide) rfl rfl).2.2.2.2.1 rfl (by decide),
   ((Open_nonpositive_timeout (simEnv quickCalls) 4 "/data/gsi" 0 simRunning
      ⟨none, ⟨200000, "running", 0⟩,
        [Event.GetProperty "init.svc.gsid" "", Event.checkService "gsiservice"]⟩ 0
      (by decide) rfl rfl).2.2.2.2.2 rfl (by decide)).trans rfl⟩

end Fiemap
